import Mathlib

/-!
Shallow embedding of `src/main.py` (interactive invoice generator).

Modelling conventions:
* Python `float` values are modelled by `PyFloat`: an exact rational for the
  finite case plus signed infinity and NaN.  Rounding of binary doubles and
  overflow to infinity are not modelled; every concrete input used in a
  theorem below is a value on which double arithmetic is exact, so the model
  agrees with CPython there.
* `input()` is modelled by consuming a list of strings (stdin lines); running
  out of input (`EOFError`, which `get_items` does not catch) is `none`.
* Everything printed (prompts and warnings) is collected in an output log.
* String functions (`str.lower`, `str.title`, `float(...)` parsing) are
  modelled on ASCII, which covers every string the program manipulates.
-/

set_option allowUnsafeReducibility true in
attribute [semireducible] Rat.add Rat.mul Rat.inv Rat.sub Rat.ofScientific

/-- Python float values: finite (exact rational), ±infinity, NaN. -/
inductive PyFloat where
  | fin : ℚ → PyFloat
  | inf : Bool → PyFloat
  | nan : PyFloat
deriving DecidableEq, Repr

/-- Python float multiplication on the model (`hours * rate` in `get_items`).
Finite×finite is exact rational multiplication (double rounding not
modelled); sign/NaN propagation follows IEEE-754. -/
def PyFloat.mul : PyFloat → PyFloat → PyFloat
  | .nan, _ => .nan
  | _, .nan => .nan
  | .fin a, .fin b => .fin (a * b)
  | .fin a, .inf s => if a = 0 then .nan else if a < 0 then .inf (!s) else .inf s
  | .inf s, .fin b => if b = 0 then .nan else if b < 0 then .inf (!s) else .inf s
  | .inf s, .inf t => .inf (Bool.xor s t)

/-- ASCII whitespace accepted (and stripped) by Python `float(str)`. -/
def isPyWs (c : Char) : Bool :=
  c = ' ' || c = '\t' || c = '\n' || c = '\r' || c = '\x0b' || c = '\x0c'

/-- Strip leading and trailing whitespace, as `float(str)` does. -/
def stripWs (cs : List Char) : List Char :=
  ((cs.dropWhile isPyWs).reverse.dropWhile isPyWs).reverse

/-- Longest leading run of ASCII digits, and the rest. -/
def takeDigits : List Char → List Char × List Char
  | [] => ([], [])
  | c :: rest =>
    if c.isDigit then
      let p := takeDigits rest
      (c :: p.1, p.2)
    else ([], c :: rest)

/-- Numeric value of a digit string (most significant first). -/
def natFromDigits (ds : List Char) : ℕ :=
  ds.foldl (fun a c => 10 * a + (c.toNat - 48)) 0

/-- CPython accepts an underscore in a numeric literal only directly between
two digits; `usOK prev cs` checks this, `prev` being the previous character. -/
def usOK : Option Char → List Char → Bool
  | _, [] => true
  | prev, c :: rest =>
    if c = '_' then
      (match prev with | some p => p.isDigit | none => false) &&
      (match rest with | d :: _ => d.isDigit | [] => false) &&
      usOK (some c) rest
    else usOK (some c) rest

/-- Mantissa digits plus optional exponent part, after the underscores have
been validated and removed: `ip`/`fp` integer and fractional digits, `r` the
remaining characters (exponent or nothing). -/
def parseExpPart (ip fp : List Char) (r : List Char) : Option ℚ :=
  if ip = [] && fp = [] then none
  else
    let mant : ℚ := (natFromDigits ip : ℚ) + (natFromDigits fp : ℚ) / ((10 : ℚ) ^ fp.length)
    match r with
    | [] => some mant
    | c :: r2 =>
      if c = 'e' || c = 'E' then
        let se := match r2 with
          | '+' :: t => (false, t)
          | '-' :: t => (true, t)
          | _ => (false, r2)
        let p := takeDigits se.2
        if p.1 = [] || p.2 ≠ [] then none
        else some (if se.1 then mant / ((10 : ℚ) ^ natFromDigits p.1)
                   else mant * ((10 : ℚ) ^ natFromDigits p.1))
      else none

/-- Decimal literal grammar of `float(str)` (sign already removed,
underscores already removed): digits, optional point, digits, optional
exponent; at least one mantissa digit; everything must be consumed. -/
def parseNumeric (cs : List Char) : Option ℚ :=
  let p := takeDigits cs
  match p.2 with
  | '.' :: r =>
    let q := takeDigits r
    parseExpPart p.1 q.1 q.2
  | _ => parseExpPart p.1 [] p.2

/-- Model of Python `float(str)`: strip whitespace, optional sign, then
either a case-insensitive `inf`/`infinity`/`nan` or a decimal literal with
underscores between digits.  `none` models `ValueError`. -/
def parseFloat (s : String) : Option PyFloat :=
  let cs := stripWs s.toList
  let sc : Bool × List Char :=
    match cs with
    | '+' :: r => (false, r)
    | '-' :: r => (true, r)
    | _ => (false, cs)
  let low := sc.2.map Char.toLower
  if low = "inf".toList || low = "infinity".toList then some (.inf sc.1)
  else if low = "nan".toList then some .nan
  else if usOK none sc.2 then
    (parseNumeric (sc.2.filter (fun c => c ≠ '_'))).map
      (fun q => .fin (if sc.1 then -q else q))
  else none

/-- Model of Python `str.lower()` (ASCII), character by character. -/
def pyLower (s : String) : String := String.mk (s.toList.map Char.toLower)

/-- One collected line item, as the dict `get_items` appends
(`Type of Work`, `Hours`, `Hourly Rate`, `Total Price`). -/
structure CItem where
  workType : String
  hours : PyFloat
  hourlyRate : PyFloat
  totalPrice : PyFloat
deriving DecidableEq, Repr

/-- The prompt `input(f"Did you perform: {work_type}? ")` prints. -/
def promptQ (wt : String) : String := "Did you perform: " ++ wt ++ "? "

/-- The prompt `input("Enter hours: ")` prints. -/
def promptH : String := "Enter hours: "

/-- The warning printed when `float(...)` raises `ValueError`. -/
def warnMsg : String := "Invalid input for hours. Please enter a numeric value."

/-- Model of `get_items(rates_dict)`: the dict is an association list in
insertion order, stdin a list of lines.  Returns the collected items, the
unconsumed input, and the printed lines; `none` models running out of input
(an uncaught `EOFError`). -/
def get_items : List (String × PyFloat) → List String →
    Option (List CItem × List String × List String)
  | [], inputs => some ([], inputs, [])
  | (wt, rate) :: rest, inputs =>
    match inputs with
    | [] => none
    | ans :: inputs1 =>
      if pyLower ans = "yes" then
        match inputs1 with
        | [] => none
        | htext :: inputs2 =>
          match parseFloat htext with
          | some h =>
            (get_items rest inputs2).map
              (fun o => (⟨wt, h, rate, h.mul rate⟩ :: o.1, o.2.1,
                         promptQ wt :: promptH :: o.2.2))
          | none =>
            (get_items rest inputs2).map
              (fun o => (o.1, o.2.1, promptQ wt :: promptH :: warnMsg :: o.2.2))
      else
        (get_items rest inputs1).map
          (fun o => (o.1, o.2.1, promptQ wt :: o.2.2))
termination_by structural rates => rates

/-- `DEFAULT_RATES` of `main.py` as an ordered association list. -/
def DEFAULT_RATES : List (String × PyFloat) :=
  [("audiobook editing", .fin 50), ("audiobook proofing", .fin 25),
   ("extra editing", .fin 50)]

/-- One (affirmation answer, hours text) pair per work-type: the shape in
which the spec quantifies over user input. -/
def flattenPlan : List (String × String) → List String
  | [] => []
  | (a, h) :: ps => if pyLower a = "yes" then a :: h :: flattenPlan ps else a :: flattenPlan ps

/-- Modelled from the spec (amended claim C1): the items the collector is
specified to return — exactly one entry per work-type whose answer lowercases
to "yes" and whose hours text `float()` accepts, in rate-table order, with
total = hours × rate. -/
def specItems : List (String × PyFloat) → List (String × String) → List CItem
  | (wt, r) :: rrest, (a, h) :: prest =>
    if pyLower a = "yes" then
      match parseFloat h with
      | some q => ⟨wt, q, r, q.mul r⟩ :: specItems rrest prest
      | none => specItems rrest prest
    else specItems rrest prest
  | _, _ => []

/-- Modelled from the spec's words for claim C1 as frozen: entries only for
work-types affirmed whose hours text parses as a NON-NEGATIVE decimal
(negative, infinite and NaN parses excluded). -/
def specItemsNonneg : List (String × PyFloat) → List (String × String) → List CItem
  | (wt, r) :: rrest, (a, h) :: prest =>
    if pyLower a = "yes" then
      match parseFloat h with
      | some (.fin q) =>
        if 0 ≤ q then ⟨wt, .fin q, r, (PyFloat.fin q).mul r⟩ :: specItemsNonneg rrest prest
        else specItemsNonneg rrest prest
      | _ => specItemsNonneg rrest prest
    else specItemsNonneg rrest prest
  | _, _ => []

/-- The printed lines the spec-side run produces, work-type by work-type. -/
def specOut : List (String × PyFloat) → List (String × String) → List String
  | (wt, _) :: rrest, (a, h) :: prest =>
    if pyLower a = "yes" then
      promptQ wt :: promptH ::
        (if (parseFloat h).isSome then specOut rrest prest
         else warnMsg :: specOut rrest prest)
    else promptQ wt :: specOut rrest prest
  | _, _ => []

/-! ### Renderer (`create_invoice`)

The renderer is modelled on records whose numeric fields are exact rationals
(the finite-double case; a NaN or infinite hours value would make the
source's `int(...)` raise, which none of the renderer claims exercise).
The worksheet is the list of `(row, column, value)` assignments the source
performs, in program order; `value = none` models assigning Python `None`
(the cell then holds no value, as for an unset environment variable). -/

/-- A line item as `create_invoice` reads it (finite values). -/
structure Item where
  workType : String
  hours : ℚ
  hourlyRate : ℚ
  totalPrice : ℚ
deriving DecidableEq, Repr

/-- The `invoice_details` dict built by `get_invoice_details`. -/
structure InvoiceRecord where
  customer_name : String
  customer_address : String
  invoice_date : String
  book_title : String
  items : List Item
deriving DecidableEq, Repr

/-- The four environment-sourced biller strings; `none` models an unset
variable (`os.getenv` returning `None`). -/
structure Env where
  name : Option String
  address : Option String
  city_state_zip : Option String
  social_handle : Option String
deriving DecidableEq, Repr

/-- The current date, as far as `datetime.now().strftime` consumes it. -/
structure PyDate where
  year : ℕ
  month : ℕ
  day : ℕ
deriving DecidableEq, Repr

/-- Zero-pad the decimal numeral of `n` to width `w`. -/
def padNat (w : ℕ) (n : ℕ) : String :=
  let s := toString n
  String.mk (List.replicate (w - s.length) '0') ++ s

/-- `datetime.now().strftime("%Y%m%d")`. -/
def fmtYmd (d : PyDate) : String :=
  padNat 4 d.year ++ padNat 2 d.month ++ padNat 2 d.day

/-- `datetime.now().strftime('%m-%d-%y')` (invoice-number suffix). -/
def fmtMDY (d : PyDate) : String :=
  padNat 2 d.month ++ "-" ++ padNat 2 d.day ++ "-" ++ padNat 2 (d.year % 100)

/-- Python `str.replace(' ', '_')`: every space becomes an underscore. -/
def pyReplaceSpace (s : String) : String :=
  String.mk (s.toList.map (fun c => if c = ' ' then '_' else c))

/-- The output filename
`f"invoice_{customer_name.replace(' ', '_')}_{invoice_date}_{timestamp}.xlsx"`. -/
def fileNameFor (r : InvoiceRecord) (today : PyDate) : String :=
  "invoice_" ++ pyReplaceSpace r.customer_name ++ "_" ++ r.invoice_date ++ "_" ++
    fmtYmd today ++ ".xlsx"

/-- Python `str.title()` (ASCII): a letter is uppercased when it follows a
non-letter and lowercased otherwise. -/
def titleChars : Bool → List Char → List Char
  | _, [] => []
  | prevAlpha, c :: rest =>
    (if prevAlpha then c.toLower else c.toUpper) :: titleChars c.isAlpha rest

/-- `item["Type of Work"].title()`. -/
def pyTitle (s : String) : String := String.mk (titleChars false s.toList)

/-- Python `int(x)` on a finite float: truncation toward zero. -/
def pyInt (q : ℚ) : ℤ := if 0 ≤ q then ⌊q⌋ else ⌈q⌉

/-- Python `x % m` on floats (`m > 0`): the representative in `[0, m)`,
i.e. floor-mod. -/
def pyMod (a m : ℚ) : ℚ := a - m * ⌊a / m⌋

/-- Python `f'{n:02}'` on an int: zero-pad to total width 2 (sign included). -/
def fmt02Int (n : ℤ) : String :=
  let s := toString n.natAbs
  let sign := if n < 0 then "-" else ""
  sign ++ String.mk (List.replicate (2 - (sign.length + s.length)) '0') ++ s

/-- The Total Run Time cell:
`f'{int(h):02}:{int((h * 60) % 60):02}:{int((h * 3600) % 60):02}'`. -/
def runTimeCell (h : ℚ) : String :=
  fmt02Int (pyInt h) ++ ":" ++ fmt02Int (pyInt (pyMod (h * 60) 60)) ++ ":" ++
    fmt02Int (pyInt (pyMod (h * 3600) 60))

/-- Round to the nearest integer, ties to even — the rounding CPython's
fixed-point float formatting performs on the (exact) value. -/
def rndHalfEven (x : ℚ) : ℤ :=
  let f := ⌊x⌋
  if x - f < 1/2 then f
  else if 1/2 < x - f then f + 1
  else if f % 2 = 0 then f else f + 1

/-- The integer number of cents a value displays as under `:.2f`. -/
def dispCents (q : ℚ) : ℤ := rndHalfEven (100 * q)

/-- Python `f"{x:.2f}"` on a finite value: two-decimal fixed-point,
round-half-even, keeping the sign of a negative value rounding to zero. -/
def fmt2f (q : ℚ) : String :=
  let c := dispCents q
  let a := c.natAbs
  let sign := if c < 0 ∨ (c = 0 ∧ q < 0) then "-" else ""
  sign ++ toString (a / 100) ++ "." ++ padNat 2 (a % 100)

/-- Python `f"${x:.2f}"`. -/
def fmtCurrency (q : ℚ) : String := "$" ++ fmt2f q

/-- `df["Total Price"].sum()` after `df = pd.DataFrame(items)`:
`pd.DataFrame([])` has no columns at all, so the column access raises
`KeyError` when the item list is empty; otherwise the column sums. -/
def dfTotalPriceSum (items : List Item) : Except String ℚ :=
  if items.isEmpty then .error "KeyError: Total Price"
  else .ok ((items.map Item.totalPrice).sum)

/-- One worksheet cell assignment: row, column (both 1-based), value. -/
structure Cell where
  row : ℕ
  col : ℕ
  val : Option String
deriving DecidableEq, Repr

/-- The fixed header block (`sheet["A1"]` … `sheet.cell(row=10, column=2)`). -/
def headerCells (r : InvoiceRecord) (env : Env) (today : PyDate) : List Cell :=
  [⟨1, 1, env.name⟩, ⟨2, 1, env.address⟩, ⟨3, 1, env.city_state_zip⟩,
   ⟨4, 1, env.social_handle⟩,
   ⟨6, 1, some "Bill To:"⟩, ⟨6, 2, some r.customer_name⟩,
   ⟨7, 2, some r.customer_address⟩,
   ⟨1, 4, some "INVOICE"⟩, ⟨3, 4, some "INVOICE NUMBER"⟩,
   ⟨3, 5, some ("KG " ++ fmtMDY today)⟩,
   ⟨4, 4, some "INVOICE DATE"⟩, ⟨4, 5, some r.invoice_date⟩,
   ⟨9, 1, some "Date"⟩, ⟨9, 2, some "Description"⟩,
   ⟨9, 3, some "Total Run Time"⟩, ⟨9, 4, some "Rate"⟩, ⟨9, 5, some "Total"⟩,
   ⟨10, 2, some r.book_title⟩]

/-- The itemized rows written from `row_num = 11` on. -/
def itemRows (date : String) (row : ℕ) : List Item → List Cell
  | [] => []
  | it :: rest =>
    ⟨row, 1, some date⟩ :: ⟨row, 2, some (pyTitle it.workType)⟩ ::
    ⟨row, 3, some (runTimeCell it.hours)⟩ ::
    ⟨row, 4, some (fmtCurrency it.hourlyRate)⟩ ::
    ⟨row, 5, some (fmtCurrency it.totalPrice)⟩ :: itemRows date (row + 1) rest

/-- The trailing block (TOTAL, Please Pay, payment instructions), written
relative to the final `row_num = 11 + len(items)`. -/
def footerCells (env : Env) (nItems : ℕ) (total : ℚ) : List Cell :=
  let rn := 11 + nItems
  [⟨rn + 1, 4, some "TOTAL"⟩, ⟨rn + 1, 5, some (fmtCurrency total)⟩,
   ⟨rn + 2, 5, some "Please Pay"⟩,
   ⟨rn + 4, 2, some "Make All Checks Payable To:"⟩,
   ⟨rn + 5, 2, env.name⟩, ⟨rn + 6, 2, env.address⟩,
   ⟨rn + 7, 2, env.city_state_zip⟩]

/-- Every cell assignment `create_invoice` performs, in program order. -/
def mkSheet (r : InvoiceRecord) (env : Env) (today : PyDate) (total : ℚ) : List Cell :=
  headerCells r env today ++ itemRows r.invoice_date 11 r.items ++
    footerCells env r.items.length total

/-- Model of `create_invoice(invoice_details)`: computes the grand total
(raising `KeyError` on an empty item list), derives the filename, and writes
the sheet.  `Except.error` models an uncaught exception. -/
def create_invoice (r : InvoiceRecord) (env : Env) (today : PyDate) :
    Except String (String × List Cell) :=
  match dfTotalPriceSum r.items with
  | .error e => .error e
  | .ok total => .ok (fileNameFor r today, mkSheet r env today total)

/-- First cell written at the given coordinates (coordinates are written at
most once, so this is the cell's content; `none` if never written or written
as `None`). -/
def cellVal : List Cell → ℕ → ℕ → Option String
  | [], _, _ => none
  | c :: rest, ro, co =>
    if c.row = ro ∧ c.col = co then c.val else cellVal rest ro co

/-- Python truthiness of a cell value (`if cell.value:`): false for `None`
and for the empty string. -/
def truthy : Option String → Bool
  | none => false
  | some s => if s = "" then false else true

/-- The column width the source assigns: longest `len(str(cell.value))` over
the column's truthy cells, plus 2 (`max_length + 2`). -/
def widthCode (sheet : List Cell) (c : ℕ) : ℕ :=
  (sheet.foldl
    (fun m cell => if cell.col = c ∧ truthy cell.val then max m (cell.val.getD "").length else m)
    0) + 2

/-- Modelled from the spec's words for claim C7: longest text over the
column's cells that hold a value (empty cells excluded), plus 2. -/
def widthSpec (sheet : List Cell) (c : ℕ) : ℕ :=
  (sheet.foldl
    (fun m cell => if cell.col = c ∧ cell.val ≠ none then max m (cell.val.getD "").length else m)
    0) + 2

/-- A sample biller identity (all four variables set). -/
def sampleEnv : Env :=
  ⟨some "Kyle G", some "1 Main St", some "Town, ST 00000", some "@kyle"⟩

/-- A sample record with one whole-cent item. -/
def sampleRec : InvoiceRecord :=
  ⟨"Jane Doe", "1 Road", "2024-03-01", "Sample Title",
   [⟨"audiobook editing", 2, 50, 100⟩]⟩

/-! ### Collector lemmas -/

theorem flattenPlan_append (p1 p2 : List (String × String)) :
    flattenPlan (p1 ++ p2) = flattenPlan p1 ++ flattenPlan p2 := by
  induction p1 with
  | nil => rfl
  | cons q ps ih =>
    obtain ⟨a, ht⟩ := q
    by_cases ha : pyLower a = "yes" <;> simp [flattenPlan, ha, ih]

theorem specItems_append (r1 r2 : List (String × PyFloat)) (p1 p2 : List (String × String))
    (h : r1.length = p1.length) :
    specItems (r1 ++ r2) (p1 ++ p2) = specItems r1 p1 ++ specItems r2 p2 := by
  induction r1 generalizing p1 with
  | nil =>
    cases p1 with
    | nil => simp [specItems]
    | cons q ps => simp at h
  | cons x xs ih =>
    cases p1 with
    | nil => simp at h
    | cons y ys =>
      obtain ⟨wt, r⟩ := x
      obtain ⟨a, ht⟩ := y
      have h' : xs.length = ys.length := by simpa using h
      by_cases ha : pyLower a = "yes"
      · cases hp : parseFloat ht <;> simp [specItems, ha, hp, ih _ h']
      · simp [specItems, ha, ih _ h']

theorem specOut_append (r1 r2 : List (String × PyFloat)) (p1 p2 : List (String × String))
    (h : r1.length = p1.length) :
    specOut (r1 ++ r2) (p1 ++ p2) = specOut r1 p1 ++ specOut r2 p2 := by
  induction r1 generalizing p1 with
  | nil =>
    cases p1 with
    | nil => simp [specOut]
    | cons q ps => simp at h
  | cons x xs ih =>
    cases p1 with
    | nil => simp at h
    | cons y ys =>
      obtain ⟨wt, r⟩ := x
      obtain ⟨a, ht⟩ := y
      have h' : xs.length = ys.length := by simpa using h
      by_cases ha : pyLower a = "yes"
      · cases hp : parseFloat ht <;> simp [specOut, ha, hp, ih _ h']
      · simp [specOut, ha, ih _ h']

/-- Running the collector on the flattening of a per-work-type plan yields
exactly the spec-side items and output, and consumes exactly the plan. -/
theorem get_items_flatten (rates : List (String × PyFloat)) (plan : List (String × String))
    (rest : List String) (h : rates.length = plan.length) :
    get_items rates (flattenPlan plan ++ rest) =
      some (specItems rates plan, rest, specOut rates plan) := by
  induction rates generalizing plan with
  | nil =>
    cases plan with
    | nil => simp [get_items, flattenPlan, specItems, specOut]
    | cons q ps => simp at h
  | cons x xs ih =>
    cases plan with
    | nil => simp at h
    | cons y ys =>
      obtain ⟨wt, r⟩ := x
      obtain ⟨a, ht⟩ := y
      have h' : xs.length = ys.length := by simpa using h
      by_cases ha : pyLower a = "yes"
      · cases hp : parseFloat ht <;>
          simp [flattenPlan, ha, get_items, hp, specItems, specOut, ih _ h']
      · simp [flattenPlan, ha, get_items, specItems, specOut, ih _ h']

/-! ### Claim theorems: collector -/

/-- C1, counterexample: with the hours text `"-2"` — which parses as a
negative decimal — the collector still produces a line item, while the
claim's description (`specItemsNonneg`: one entry per work-type affirmed
with a NON-NEGATIVE decimal) predicts none.  So the claim as frozen is false
on the code. -/
theorem get_items_nonneg_claim_false :
    (get_items DEFAULT_RATES (flattenPlan [("yes", "-2"), ("no", ""), ("no", "")])).map
        (fun o => o.1) ≠
      some (specItemsNonneg DEFAULT_RATES [("yes", "-2"), ("no", ""), ("no", "")]) ∧
    (get_items DEFAULT_RATES (flattenPlan [("yes", "-2"), ("no", ""), ("no", "")])).map
        (fun o => o.1) =
      some [⟨"audiobook editing", .fin (-2), .fin 50, .fin (-100)⟩] ∧
    specItemsNonneg DEFAULT_RATES [("yes", "-2"), ("no", ""), ("no", "")] = [] := by
  refine ⟨by decide, by decide, by decide⟩

/-- C1 (amended): for every rate table and every per-work-type
(affirmation answer, hours text) input sequence, the items list returned by
`get_items` contains exactly one entry per work-type that was affirmed and
whose hours text `float()` accepts (negative and non-finite values
included), in rate-table iteration order, each entry's total being
hours × rate (`specItems`). -/
theorem get_items_returns_spec_items (rates : List (String × PyFloat))
    (plan : List (String × String)) (rest : List String)
    (h : rates.length = plan.length) :
    (get_items rates (flattenPlan plan ++ rest)).map (fun o => o.1) =
      some (specItems rates plan) := by
  rw [get_items_flatten rates plan rest h]
  rfl

/-- Witness for the amended C1 at the default rate table. -/
theorem get_items_returns_spec_items_witness :
    DEFAULT_RATES.length = ([("yes", "2"), ("no", ""), ("Yes", "1.5")] :
      List (String × String)).length ∧
    (get_items DEFAULT_RATES
        (flattenPlan [("yes", "2"), ("no", ""), ("Yes", "1.5")] ++ [])).map (fun o => o.1) =
      some (specItems DEFAULT_RATES [("yes", "2"), ("no", ""), ("Yes", "1.5")]) ∧
    specItems DEFAULT_RATES [("yes", "2"), ("no", ""), ("Yes", "1.5")] =
      [⟨"audiobook editing", .fin 2, .fin 50, .fin 100⟩,
       ⟨"extra editing", .fin (3/2), .fin 50, .fin 75⟩] :=
  ⟨by decide, get_items_returns_spec_items _ _ _ (by decide), by decide⟩

/-- C4: a confirmed work-type whose hours text fails to parse gets the
warning printed, loses exactly its own line item, consumes exactly its two
input lines (no re-prompt), and the run neither aborts nor changes any other
work-type's item. -/
theorem parse_failure_drops_only_that_item
    (rates1 rates2 : List (String × PyFloat)) (wt : String) (r : PyFloat)
    (plan1 plan2 : List (String × String)) (a htext : String) (rest : List String)
    (h1 : rates1.length = plan1.length) (h2 : rates2.length = plan2.length)
    (ha : pyLower a = "yes") (hp : parseFloat htext = none) :
    get_items (rates1 ++ (wt, r) :: rates2)
        (flattenPlan plan1 ++ a :: htext :: (flattenPlan plan2 ++ rest)) =
      some (specItems rates1 plan1 ++ specItems rates2 plan2, rest,
            specOut rates1 plan1 ++
              promptQ wt :: promptH :: warnMsg :: specOut rates2 plan2) := by
  have hlen : (rates1 ++ (wt, r) :: rates2).length =
      (plan1 ++ (a, htext) :: plan2).length := by simp [h1, h2]
  have hfl : flattenPlan (plan1 ++ (a, htext) :: plan2) ++ rest =
      flattenPlan plan1 ++ a :: htext :: (flattenPlan plan2 ++ rest) := by
    rw [flattenPlan_append]
    simp [flattenPlan, ha]
  have hmain := get_items_flatten (rates1 ++ (wt, r) :: rates2)
    (plan1 ++ (a, htext) :: plan2) rest hlen
  rw [hfl] at hmain
  rw [specItems_append _ _ _ _ h1, specOut_append _ _ _ _ h1] at hmain
  simpa [specItems, specOut, ha, hp] using hmain

/-- Witness for C4: hours text `"abc"` for the middle work-type. -/
theorem parse_failure_drops_only_that_item_witness :
    pyLower "yes" = "yes" ∧ parseFloat "abc" = none ∧
    get_items ([("audiobook editing", PyFloat.fin 50)] ++
        ("audiobook proofing", PyFloat.fin 25) :: [("extra editing", PyFloat.fin 50)])
        (flattenPlan [("no", "")] ++ "yes" :: "abc" :: (flattenPlan [("yes", "2")] ++ [])) =
      some (specItems [("audiobook editing", PyFloat.fin 50)] [("no", "")] ++
              specItems [("extra editing", PyFloat.fin 50)] [("yes", "2")], [],
            specOut [("audiobook editing", PyFloat.fin 50)] [("no", "")] ++
              promptQ "audiobook proofing" :: promptH :: warnMsg ::
                specOut [("extra editing", PyFloat.fin 50)] [("yes", "2")]) :=
  ⟨by decide, by decide,
   parse_failure_drops_only_that_item _ _ _ _ _ _ _ _ _
     (by decide) (by decide) (by decide) (by decide)⟩

/-- C5: an answer affirms a work-type exactly when its lowercasing is the
literal "yes"; "yes", "YES", "Yes" affirm while "y", "no", "", "true"
decline. -/
theorem affirmed_iff_lower_yes :
    (∀ (s htext : String) (r q : PyFloat) (rest : List String),
        parseFloat htext = some q →
        (get_items [("w", r)] (s :: htext :: rest)).map
            (fun o => o.1.map CItem.workType) =
          some (if pyLower s = "yes" then ["w"] else [])) ∧
    pyLower "yes" = "yes" ∧ pyLower "YES" = "yes" ∧ pyLower "Yes" = "yes" ∧
    pyLower "y" ≠ "yes" ∧ pyLower "no" ≠ "yes" ∧ pyLower "" ≠ "yes" ∧
    pyLower "true" ≠ "yes" := by
  refine ⟨?_, by decide, by decide, by decide, by decide, by decide, by decide, by decide⟩
  intro s htext r q rest hp
  by_cases hs : pyLower s = "yes" <;> simp [get_items, hs, hp]

/-- Witness for C5 at answer "YES" and hours text "2". -/
theorem affirmed_iff_lower_yes_witness :
    parseFloat "2" = some (.fin 2) ∧
    (get_items [("w", PyFloat.fin 50)] ("YES" :: "2" :: [])).map
        (fun o => o.1.map CItem.workType) = some ["w"] := by
  refine ⟨by decide, ?_⟩
  have h := affirmed_iff_lower_yes.1 "YES" "2" (PyFloat.fin 50) (PyFloat.fin 2) [] (by decide)
  have he : (if pyLower "YES" = "yes" then (["w"] : List String) else []) = ["w"] := by decide
  rw [he] at h
  exact h

/-- C9: `float()` (hence the collector) accepts signed, whitespace-padded
and non-finite inputs, so a confirmed work-type can produce a line item
whose total is negative or non-finite. -/
theorem float_parse_accepts_signed_and_special :
    parseFloat "nan" = some .nan ∧
    parseFloat "inf" = some (.inf false) ∧
    parseFloat "-2" = some (.fin (-2)) ∧
    parseFloat " 2.5 " = some (.fin (5/2)) ∧
    parseFloat "abc" = none ∧
    (get_items [("audiobook editing", PyFloat.fin 50)] ["yes", "-2"]).map (fun o => o.1) =
      some [⟨"audiobook editing", .fin (-2), .fin 50, .fin (-100)⟩] ∧
    ((-100 : ℚ) < 0) ∧
    (get_items [("audiobook editing", PyFloat.fin 50)] ["yes", "nan"]).map (fun o => o.1) =
      some [⟨"audiobook editing", .nan, .fin 50, .nan⟩] ∧
    (get_items [("audiobook editing", PyFloat.fin 50)] ["yes", "inf"]).map (fun o => o.1) =
      some [⟨"audiobook editing", .inf false, .fin 50, .inf false⟩] := by
  refine ⟨by decide, by decide, by decide, by decide, by decide, by decide, by decide,
    by decide, by decide⟩

/-! ### Renderer lemmas -/

theorem pyMod_nonneg (a m : ℚ) (hm : 0 < m) : 0 ≤ pyMod a m := by
  have h1 : ((⌊a / m⌋ : ℤ) : ℚ) ≤ a / m := Int.floor_le _
  have h2 : m * ((⌊a / m⌋ : ℤ) : ℚ) ≤ m * (a / m) :=
    mul_le_mul_of_nonneg_left h1 hm.le
  have h3 : m * (a / m) = a := by field_simp
  unfold pyMod
  linarith

theorem pyInt_eq_floor (q : ℚ) (h : 0 ≤ q) : pyInt q = ⌊q⌋ := by
  unfold pyInt
  rw [if_pos h]

theorem create_invoice_ok (r : InvoiceRecord) (env : Env) (d : PyDate)
    (h : r.items ≠ []) :
    create_invoice r env d =
      .ok (fileNameFor r d, mkSheet r env d ((r.items.map Item.totalPrice).sum)) := by
  obtain ⟨a, t, ht⟩ := List.exists_cons_of_ne_nil h
  simp [create_invoice, dfTotalPriceSum, ht]

theorem cellVal_cons_of_ne (a b : ℕ) (v : Option String) (l : List Cell) (ro co : ℕ)
    (h : ¬(a = ro ∧ b = co)) : cellVal (⟨a, b, v⟩ :: l) ro co = cellVal l ro co := by
  simp [cellVal, h]

theorem cellVal_append_of_row_lt (l1 l2 : List Cell) (ro co : ℕ)
    (h : ∀ cell ∈ l1, cell.row < ro) :
    cellVal (l1 ++ l2) ro co = cellVal l2 ro co := by
  induction l1 with
  | nil => rfl
  | cons x xs ih =>
    obtain ⟨a, b, v⟩ := x
    rw [List.cons_append, cellVal_cons_of_ne]
    · exact ih fun cell hc => h cell (List.mem_cons_of_mem _ hc)
    · have hx := h ⟨a, b, v⟩ (List.mem_cons_self _ _)
      rintro ⟨h1, _⟩
      exact absurd h1 (by simpa using Nat.ne_of_lt hx)

theorem headerCells_row_le (r : InvoiceRecord) (env : Env) (today : PyDate) :
    ∀ cell ∈ headerCells r env today, cell.row ≤ 10 := by
  intro cell hc
  simp only [headerCells, List.mem_cons, List.not_mem_nil, or_false] at hc
  rcases hc with
    rfl|rfl|rfl|rfl|rfl|rfl|rfl|rfl|rfl|rfl|rfl|rfl|rfl|rfl|rfl|rfl|rfl|rfl <;> simp

theorem itemRows_row_lt (date : String) :
    ∀ (items : List Item) (start ro : ℕ), start + items.length ≤ ro →
      ∀ cell ∈ itemRows date start items, cell.row < ro := by
  intro items
  induction items with
  | nil => intro start ro h cell hc; simp [itemRows] at hc
  | cons it rest ih =>
    intro start ro h cell hc
    have hlen : start + rest.length + 1 ≤ ro := by
      simpa [Nat.add_comm, Nat.add_assoc] using h
    have hs : start < ro := by omega
    simp only [itemRows, List.mem_cons] at hc
    rcases hc with rfl|rfl|rfl|rfl|rfl|hc
    · exact hs
    · exact hs
    · exact hs
    · exact hs
    · exact hs
    · exact ih (start + 1) ro (by omega) cell hc

/-- Lookups at or below the TOTAL row skip the header and item blocks. -/
theorem mkSheet_cellVal_footer (r : InvoiceRecord) (env : Env) (today : PyDate)
    (total : ℚ) (ro co : ℕ) (h : 11 + r.items.length ≤ ro) :
    cellVal (mkSheet r env today total) ro co =
      cellVal (footerCells env r.items.length total) ro co := by
  unfold mkSheet
  rw [List.append_assoc]
  rw [cellVal_append_of_row_lt _ _ ro co (fun cell hc => by
    have := headerCells_row_le r env today cell hc
    omega)]
  exact cellVal_append_of_row_lt _ _ ro co
    (itemRows_row_lt r.invoice_date r.items 11 ro h)

theorem footer_total (env : Env) (n : ℕ) (total : ℚ) :
    cellVal (footerCells env n total) (11 + n + 1) 5 = some (fmtCurrency total) := by
  simp only [footerCells]
  rw [cellVal_cons_of_ne]
  · simp [cellVal]
  · omega

theorem footer_name (env : Env) (n : ℕ) (total : ℚ) :
    cellVal (footerCells env n total) (11 + n + 5) 2 = env.name := by
  simp only [footerCells]
  rw [cellVal_cons_of_ne, cellVal_cons_of_ne, cellVal_cons_of_ne, cellVal_cons_of_ne]
  · simp [cellVal]
  all_goals omega

theorem footer_address (env : Env) (n : ℕ) (total : ℚ) :
    cellVal (footerCells env n total) (11 + n + 6) 2 = env.address := by
  simp only [footerCells]
  rw [cellVal_cons_of_ne, cellVal_cons_of_ne, cellVal_cons_of_ne, cellVal_cons_of_ne,
      cellVal_cons_of_ne]
  · simp [cellVal]
  all_goals omega

theorem footer_csz (env : Env) (n : ℕ) (total : ℚ) :
    cellVal (footerCells env n total) (11 + n + 7) 2 = env.city_state_zip := by
  simp only [footerCells]
  rw [cellVal_cons_of_ne, cellVal_cons_of_ne, cellVal_cons_of_ne, cellVal_cons_of_ne,
      cellVal_cons_of_ne, cellVal_cons_of_ne]
  · simp [cellVal]
  all_goals omega

theorem rndHalfEven_intCast (z : ℤ) : rndHalfEven (z : ℚ) = z := by
  unfold rndHalfEven
  rw [Int.floor_intCast, if_pos (by rw [sub_self]; norm_num)]

theorem dispCents_of_int (x : ℚ) (z : ℤ) (hz : 100 * x = (z : ℚ)) : dispCents x = z := by
  unfold dispCents
  rw [hz, rndHalfEven_intCast]

theorem cents_sum_int (l : List ℚ) :
    (∀ x ∈ l, ∃ z : ℤ, 100 * x = (z : ℚ)) →
    ∃ Z : ℤ, 100 * l.sum = (Z : ℚ) ∧ Z = (l.map dispCents).sum := by
  induction l with
  | nil => exact fun _ => ⟨0, by simp, by simp⟩
  | cons x xs ih =>
    intro h
    obtain ⟨z, hz⟩ := h x (List.mem_cons_self _ _)
    obtain ⟨Z, hZ1, hZ2⟩ := ih fun y hy => h y (List.mem_cons_of_mem _ hy)
    refine ⟨z + Z, ?_, ?_⟩
    · rw [List.sum_cons, mul_add, hz, hZ1]
      push_cast
      ring
    · rw [List.map_cons, List.sum_cons, ← hZ2, dispCents_of_int x z hz]

theorem dispCents_sum (l : List ℚ) (h : ∀ x ∈ l, ∃ z : ℤ, 100 * x = (z : ℚ)) :
    dispCents l.sum = (l.map dispCents).sum := by
  obtain ⟨Z, h1, h2⟩ := cents_sum_int l h
  rw [← h2]
  exact dispCents_of_int _ _ h1

theorem width_step_eq (c : ℕ) (m : ℕ) (x : Cell) :
    (if x.col = c ∧ truthy x.val then max m (x.val.getD "").length else m) =
    (if x.col = c ∧ x.val ≠ none then max m (x.val.getD "").length else m) := by
  rcases hv : x.val with _ | s
  · simp [truthy, hv]
  · by_cases hs : s = ""
    · subst hs
      by_cases hc : x.col = c <;> simp [truthy, hv, hc]
    · simp [truthy, hv, hs]

theorem width_fold_eq (c : ℕ) (l : List Cell) : ∀ m : ℕ,
    l.foldl (fun m cell =>
      if cell.col = c ∧ truthy cell.val then max m (cell.val.getD "").length else m) m =
    l.foldl (fun m cell =>
      if cell.col = c ∧ cell.val ≠ none then max m (cell.val.getD "").length else m) m := by
  induction l with
  | nil => intro m; rfl
  | cons x xs ih =>
    intro m
    simp only [List.foldl_cons]
    rw [width_step_eq c m x]
    exact ih _

/-! ### Claim theorems: renderer -/

/-- C2 (code bug evidence): on an empty item list `create_invoice` does not
complete — `pd.DataFrame([])` has no columns, so `df["Total Price"]` raises
`KeyError` before anything is written, instead of producing a zero-row table
with a "$0.00" total. -/
theorem empty_items_keyerror :
    create_invoice ⟨"Jane Doe", "1 Road", "2024-03-01", "Book", []⟩ sampleEnv ⟨2024, 3, 1⟩ =
      .error "KeyError: Total Price" ∧
    dfTotalPriceSum [] = .error "KeyError: Total Price" := ⟨rfl, rfl⟩

/-- C6: every Total Run Time cell is the code's
`{int(h):02}:{int((h*60)%60):02}:{int((h*3600)%60):02}`, whose minute and
second fields equal the claimed floor((h×60) mod 60) and
floor((h×3600) mod 60), zero-padded to two digits; 1.5 h renders "01:30:00",
0 renders "00:00:00" (and 121/60 h renders "02:01:00"). -/
theorem run_time_cell_formula :
    (∀ h : ℚ, runTimeCell h =
        fmt02Int (pyInt h) ++ ":" ++ fmt02Int ⌊pyMod (h * 60) 60⌋ ++ ":" ++
          fmt02Int ⌊pyMod (h * 3600) 60⌋) ∧
    runTimeCell (3/2) = "01:30:00" ∧ runTimeCell 0 = "00:00:00" ∧
    runTimeCell (121/60) = "02:01:00" := by
  refine ⟨?_, by decide, by decide, by decide⟩
  intro h
  unfold runTimeCell
  rw [pyInt_eq_floor _ (pyMod_nonneg _ _ (by norm_num)),
      pyInt_eq_floor _ (pyMod_nonneg _ _ (by norm_num))]

/-- C7: the width the source assigns to each column of a rendered sheet
(`max_length + 2` over truthy cells) is exactly the greatest text length
over the column's cells that hold a value, plus 2: value-less cells never
matter, and a held empty string cannot change the maximum either. -/
theorem column_width_exact (r : InvoiceRecord) (env : Env) (today : PyDate)
    (total : ℚ) (c : ℕ) :
    widthCode (mkSheet r env today total) c = widthSpec (mkSheet r env today total) c := by
  unfold widthCode widthSpec
  rw [width_fold_eq]

/-- C3, counterexample: two items whose (exactly representable) totals are
$0.125 each display as "$0.12", yet the TOTAL cell shows "$0.25" — one cent
more than the displayed per-item totals' sum.  The claim as frozen is false
on the code. -/
theorem grand_total_cents_claim_false :
    create_invoice
        ⟨"Jane Doe", "1 Road", "2024-03-01", "Book",
         [⟨"audiobook editing", 1/400, 50, 1/8⟩, ⟨"extra editing", 1/400, 50, 1/8⟩]⟩
        sampleEnv ⟨2024, 3, 1⟩ =
      .ok (fileNameFor
          ⟨"Jane Doe", "1 Road", "2024-03-01", "Book",
           [⟨"audiobook editing", 1/400, 50, 1/8⟩, ⟨"extra editing", 1/400, 50, 1/8⟩]⟩
          ⟨2024, 3, 1⟩,
        mkSheet
          ⟨"Jane Doe", "1 Road", "2024-03-01", "Book",
           [⟨"audiobook editing", 1/400, 50, 1/8⟩, ⟨"extra editing", 1/400, 50, 1/8⟩]⟩
          sampleEnv ⟨2024, 3, 1⟩ (1/4)) ∧
    cellVal (mkSheet
        ⟨"Jane Doe", "1 Road", "2024-03-01", "Book",
         [⟨"audiobook editing", 1/400, 50, 1/8⟩, ⟨"extra editing", 1/400, 50, 1/8⟩]⟩
        sampleEnv ⟨2024, 3, 1⟩ (1/4)) 14 5 = some "$0.25" ∧
    cellVal (mkSheet
        ⟨"Jane Doe", "1 Road", "2024-03-01", "Book",
         [⟨"audiobook editing", 1/400, 50, 1/8⟩, ⟨"extra editing", 1/400, 50, 1/8⟩]⟩
        sampleEnv ⟨2024, 3, 1⟩ (1/4)) 11 5 = some "$0.12" ∧
    cellVal (mkSheet
        ⟨"Jane Doe", "1 Road", "2024-03-01", "Book",
         [⟨"audiobook editing", 1/400, 50, 1/8⟩, ⟨"extra editing", 1/400, 50, 1/8⟩]⟩
        sampleEnv ⟨2024, 3, 1⟩ (1/4)) 12 5 = some "$0.12" ∧
    dispCents (1/8 + 1/8) ≠ dispCents (1/8) + dispCents (1/8) := by
  refine ⟨rfl, by decide, by decide, by decide, by decide⟩

/-- C3 (amended): the TOTAL cell always shows the two-decimal formatting of
the exact sum of the items' totals; that agrees to the cent with the sum of
the displayed per-item totals whenever every item's total is a whole number
of cents (the rounding of each display is then exact), though not in
general. -/
theorem grand_total_matches_cents_sum (r : InvoiceRecord) (env : Env) (d : PyDate)
    (h : r.items ≠ [])
    (hc : ∀ it ∈ r.items, ∃ z : ℤ, 100 * it.totalPrice = (z : ℚ)) :
    ∃ cells, create_invoice r env d = .ok (fileNameFor r d, cells) ∧
      cellVal cells (11 + r.items.length + 1) 5 =
        some (fmtCurrency ((r.items.map Item.totalPrice).sum)) ∧
      dispCents ((r.items.map Item.totalPrice).sum) =
        (r.items.map (fun it => dispCents it.totalPrice)).sum := by
  refine ⟨_, create_invoice_ok r env d h, ?_, ?_⟩
  · rw [mkSheet_cellVal_footer _ _ _ _ _ _ (by omega), footer_total]
  · have hmem : ∀ x ∈ r.items.map Item.totalPrice, ∃ z : ℤ, 100 * x = (z : ℚ) := by
      intro x hx
      obtain ⟨it, hit, rfl⟩ := List.mem_map.mp hx
      exact hc it hit
    rw [dispCents_sum _ hmem, List.map_map]
    rfl

/-- Witness for the amended C3 at a one-item, whole-cent record. -/
theorem grand_total_matches_cents_sum_witness :
    sampleRec.items ≠ [] ∧
    (∃ cells, create_invoice sampleRec sampleEnv ⟨2024, 3, 1⟩ =
        .ok (fileNameFor sampleRec ⟨2024, 3, 1⟩, cells) ∧
      cellVal cells (11 + sampleRec.items.length + 1) 5 =
        some (fmtCurrency ((sampleRec.items.map Item.totalPrice).sum)) ∧
      dispCents ((sampleRec.items.map Item.totalPrice).sum) =
        (sampleRec.items.map (fun it => dispCents it.totalPrice)).sum) := by
  have hc : ∀ it ∈ sampleRec.items, ∃ z : ℤ, 100 * it.totalPrice = (z : ℚ) := by
    intro it hit
    simp only [sampleRec, List.mem_cons, List.not_mem_nil, or_false] at hit
    subst hit
    exact ⟨10000, by norm_num⟩
  exact ⟨by decide, grand_total_matches_cents_sum sampleRec sampleEnv ⟨2024, 3, 1⟩
    (by decide) hc⟩

/-- C8: the produced filename is exactly
`invoice_` + customer name with spaces replaced by underscores + `_` +
invoice date as entered + `_` + current date as YYYYMMDD + `.xlsx`. -/
theorem output_filename_format (r : InvoiceRecord) (env : Env) (d : PyDate)
    (h : r.items ≠ []) :
    (∃ cells, create_invoice r env d = .ok (fileNameFor r d, cells)) ∧
    fileNameFor r d =
      "invoice_" ++ pyReplaceSpace r.customer_name ++ "_" ++ r.invoice_date ++ "_" ++
        (padNat 4 d.year ++ padNat 2 d.month ++ padNat 2 d.day) ++ ".xlsx" ∧
    fileNameFor sampleRec ⟨2024, 3, 1⟩ = "invoice_Jane_Doe_2024-03-01_20240301.xlsx" ∧
    pyReplaceSpace "Jane Doe" = "Jane_Doe" :=
  ⟨⟨_, create_invoice_ok r env d h⟩, rfl, by decide, by decide⟩

/-- Witness for C8 at the sample record. -/
theorem output_filename_format_witness :
    sampleRec.items ≠ [] ∧
    ((∃ cells, create_invoice sampleRec sampleEnv ⟨2024, 3, 1⟩ =
        .ok (fileNameFor sampleRec ⟨2024, 3, 1⟩, cells)) ∧
      fileNameFor sampleRec ⟨2024, 3, 1⟩ =
        "invoice_" ++ pyReplaceSpace sampleRec.customer_name ++ "_" ++
          sampleRec.invoice_date ++ "_" ++
          (padNat 4 (2024 : ℕ) ++ padNat 2 (3 : ℕ) ++ padNat 2 (1 : ℕ)) ++ ".xlsx" ∧
      fileNameFor sampleRec ⟨2024, 3, 1⟩ = "invoice_Jane_Doe_2024-03-01_20240301.xlsx" ∧
      pyReplaceSpace "Jane Doe" = "Jane_Doe") :=
  ⟨by decide, output_filename_format sampleRec sampleEnv ⟨2024, 3, 1⟩ (by decide)⟩

/-- C10: whatever of the four environment variables are unset (`None`),
rendering completes and returns a file, and the biller-identity cells
(A1–A4) and payment-instruction cells hold exactly the optional values —
blank when unset — rather than raising. -/
theorem unset_env_renders_blank (r : InvoiceRecord) (env : Env) (d : PyDate)
    (h : r.items ≠ []) :
    ∃ cells, create_invoice r env d = .ok (fileNameFor r d, cells) ∧
      cellVal cells 1 1 = env.name ∧ cellVal cells 2 1 = env.address ∧
      cellVal cells 3 1 = env.city_state_zip ∧ cellVal cells 4 1 = env.social_handle ∧
      cellVal cells (11 + r.items.length + 5) 2 = env.name ∧
      cellVal cells (11 + r.items.length + 6) 2 = env.address ∧
      cellVal cells (11 + r.items.length + 7) 2 = env.city_state_zip := by
  refine ⟨mkSheet r env d ((r.items.map Item.totalPrice).sum),
    create_invoice_ok r env d h, ?_, ?_, ?_, ?_, ?_, ?_, ?_⟩
  · simp [mkSheet, headerCells, cellVal]
  · simp [mkSheet, headerCells, cellVal]
  · simp [mkSheet, headerCells, cellVal]
  · simp [mkSheet, headerCells, cellVal]
  · rw [mkSheet_cellVal_footer _ _ _ _ _ _ (by omega), footer_name]
  · rw [mkSheet_cellVal_footer _ _ _ _ _ _ (by omega), footer_address]
  · rw [mkSheet_cellVal_footer _ _ _ _ _ _ (by omega), footer_csz]

/-- Witness for C10 with all four environment variables unset. -/
theorem unset_env_renders_blank_witness :
    sampleRec.items ≠ [] ∧
    (∃ cells, create_invoice sampleRec ⟨none, none, none, none⟩ ⟨2024, 3, 1⟩ =
        .ok (fileNameFor sampleRec ⟨2024, 3, 1⟩, cells) ∧
      cellVal cells 1 1 = (⟨none, none, none, none⟩ : Env).name ∧
      cellVal cells 2 1 = (⟨none, none, none, none⟩ : Env).address ∧
      cellVal cells 3 1 = (⟨none, none, none, none⟩ : Env).city_state_zip ∧
      cellVal cells 4 1 = (⟨none, none, none, none⟩ : Env).social_handle ∧
      cellVal cells (11 + sampleRec.items.length + 5) 2 =
        (⟨none, none, none, none⟩ : Env).name ∧
      cellVal cells (11 + sampleRec.items.length + 6) 2 =
        (⟨none, none, none, none⟩ : Env).address ∧
      cellVal cells (11 + sampleRec.items.length + 7) 2 =
        (⟨none, none, none, none⟩ : Env).city_state_zip) :=
  ⟨by decide, unset_env_renders_blank sampleRec ⟨none, none, none, none⟩ ⟨2024, 3, 1⟩
    (by decide)⟩

/-! ### Sanity checks of the model against CPython behaviour -/

example : runTimeCell (3/2) = "01:30:00" := by decide
example : runTimeCell 0 = "00:00:00" := by decide
example : runTimeCell 2 = "02:00:00" := by decide
example : fmtCurrency 50 = "$50.00" := by decide
example : fmtCurrency 100 = "$100.00" := by decide
example : fmtCurrency (1/8) = "$0.12" := by decide
example : fmtCurrency (1/4) = "$0.25" := by decide
example : pyTitle "audiobook editing" = "Audiobook Editing" := by decide
example : fmtYmd ⟨2024, 3, 1⟩ = "20240301" := by decide
example : fmtMDY ⟨2024, 3, 1⟩ = "03-01-24" := by decide
example : fileNameFor ⟨"Jane Doe", "a", "2024-03-01", "b", []⟩ ⟨2024, 3, 1⟩ =
    "invoice_Jane_Doe_2024-03-01_20240301.xlsx" := by decide

example : parseFloat "-2" = some (.fin (-2)) := by decide
example : parseFloat "abc" = none := by decide
example : parseFloat " 2.5 " = some (.fin (5/2)) := by decide
example : parseFloat "nan" = some .nan := by decide
example : parseFloat "inf" = some (.inf false) := by decide
example : parseFloat "1_0" = some (.fin 10) := by decide
example : parseFloat "1_" = none := by decide
example : parseFloat "1e2" = some (.fin 100) := by decide
example : parseFloat "" = none := by decide
example : parseFloat "." = none := by decide
example : parseFloat "1.5" = some (.fin (3/2)) := by decide
example :
    get_items DEFAULT_RATES ["yes", "2", "no", "Yes", "1.5"] =
      some ([⟨"audiobook editing", .fin 2, .fin 50, .fin 100⟩,
             ⟨"extra editing", .fin (3/2), .fin 50, .fin 75⟩], [],
            [promptQ "audiobook editing", promptH,
             promptQ "audiobook proofing",
             promptQ "extra editing", promptH]) := by decide
